import Mathlib

set_option maxHeartbeats 1000000

/-!
Shallow embedding of the 6502 CPU core of the NES-web-emulator repository.

The embedding follows the JavaScript source: `execute.js` (addressing-mode
handlers and the 56 instruction handlers) and the `main.js` revision holding
`cpuCycle` / `decodeInstruction` / `executeInstruction`.  JavaScript numbers
are modelled as `Nat` (or `Int` where an intermediate value can be negative),
`x & 0xFF` / `x & 0xFFFF` as reduction modulo 2^8 / 2^16 (exact for the
magnitudes arising here, since `&` acts on the 32-bit two's-complement
representation), and the 64 KiB `Uint8Array` as a function from addresses to
byte values.
-/

/-- JS 32-bit bitwise complement `~m` of a small non-negative mask, as used in
`status & ~mask`; for operands below 2^31 the JS result of the `&` agrees with
this value. -/
def jsNot (m : Nat) : Nat := 0xFFFFFFFF ^^^ m

/-- JS `n & 0xFF` for a non-negative number (below 2^31). -/
def and8 (n : Nat) : Nat := n % 256

/-- JS `n & 0xFFFF` for a non-negative number (below 2^31). -/
def and16 (n : Nat) : Nat := n % 65536

/-- JS `i & 0xFF` where `i` may be negative: the mask acts on the 32-bit
two's-complement representation, i.e. the result is `i` modulo 256. -/
def and8i (i : Int) : Nat := (i % 256).toNat

/-- JS `i & 0xFFFF` where `i` may be negative. -/
def and16i (i : Int) : Nat := (i % 65536).toNat

/-- The CPU register file (`cpuRegisters` in the source) together with the
64 KiB `mainMemory` byte store. -/
structure Core where
  a : Nat
  x : Nat
  y : Nat
  pc : Nat
  sp : Nat
  status : Nat
  mainMemory : Nat → Nat

/-- A store into a `Uint8Array`: the written value is reduced to a byte. -/
def memWrite (mem : Nat → Nat) (addr v : Nat) : Nat → Nat :=
  fun i => if i = addr then v % 256 else mem i

/-- The source's recurring conditional flag update
`status = cond ? (status | mask) : (status & ~mask)`. -/
def flagWrite (cond : Prop) [Decidable cond] (mask st : Nat) : Nat :=
  if cond then st ||| mask else st &&& jsNot mask

/-- The pair of ternaries repeated at the end of most handlers: the zero flag
from `result === 0`, then the negative flag from `result & 0x80`. -/
def znFlags (result st : Nat) : Nat :=
  flagWrite (result &&& 0x80 ≠ 0) 0x80 (flagWrite (result = 0) 0x02 st)

/-! ### Addressing-mode handlers (pure layer)

These are the `get...` functions of `execute.js`, written over the numeric
arguments their bodies consume (register values and memory are passed
explicitly instead of read from module globals). -/

/-- `getAbsolute`: the 16-bit address `(operand2 << 8) | operand1`. -/
def getAbsolute (operand1 operand2 : Nat) : Nat :=
  (operand2 <<< 8) ||| operand1

/-- `getAbsoluteX`: absolute address plus X, wrapped at 0xFFFF. -/
def getAbsoluteX (operand1 operand2 x : Nat) : Nat :=
  and16 (((operand2 <<< 8) ||| operand1) + x)

/-- `getAbsoluteY`: absolute address plus Y, wrapped at 0xFFFF. -/
def getAbsoluteY (operand1 operand2 y : Nat) : Nat :=
  and16 (((operand2 <<< 8) ||| operand1) + y)

/-- `getImmediate`: the address of the immediate byte, `(pc - 1) & 0xFFFF`. -/
def getImmediate (pc : Nat) : Nat := and16i ((pc : Int) - 1)

/-- `getIndirect`: reads the little-endian word whose low byte sits at
`(operand2 << 8) | operand1`; the address of the high byte wraps its low
byte at 0xFF, replicating the 6502 page-boundary fetch bug. -/
def getIndirect (operand1 operand2 : Nat) (mainMemory : Nat → Nat) : Nat :=
  let addressL := and16 ((operand2 <<< 8) ||| operand1)
  let addressH := and16 ((operand2 <<< 8) ||| and8 (operand1 + 1))
  and16 ((mainMemory addressH <<< 8) ||| mainMemory addressL)

/-- `getXIndexedIndirect`: word read from zero page at `(operand + x) & 0xFF`
and the following zero-page location. -/
def getXIndexedIndirect (operand x : Nat) (mainMemory : Nat → Nat) : Nat :=
  let address := and8 (operand + x)
  and16 (mainMemory address ||| (mainMemory (and8 (address + 1)) <<< 8))

/-- `getIndirectYIndexed`: zero-page word plus Y, wrapped at 0xFFFF. -/
def getIndirectYIndexed (operand y : Nat) (mainMemory : Nat → Nat) : Nat :=
  let address := and8 operand
  and16 ((mainMemory address ||| (mainMemory (and8 (address + 1)) <<< 8)) + y)

/-- `getRelative`: two's-complement decode of the displacement byte. -/
def getRelative (operand : Nat) : Int :=
  if operand &&& 0x80 ≠ 0 then (operand : Int) - 256 else (operand : Int)

/-- `getZeropage`. -/
def getZeropage (operand : Nat) : Nat := and8 operand

/-- `getZeropageXIndexed`: wraps within the zero page. -/
def getZeropageXIndexed (operand x : Nat) : Nat := and8 (operand + x)

/-- `getZeropageYIndexed`: wraps within the zero page. -/
def getZeropageYIndexed (operand y : Nat) : Nat := and8 (operand + y)

/-! ### Instruction handlers -/

/-- Operand of the shift/rotate handlers: the `"accumulator"` marker string
returned by `getAccumulator`, or a memory address. -/
inductive AccOrAddr where
  | accumulator
  | addr (n : Nat)

/-- Number of decimal digits of the (bounded) values arising here. -/
def digits10 (n : Nat) : Nat :=
  if n < 10 then 1 else if n < 100 then 2 else if n < 1000 then 3
  else if n < 10000 then 4 else 5

/-- JS `a + b` where `a` is a number and `b` a one-element argument array:
string concatenation of the decimal representations, read back as a number.
Exact for the register- and address-sized values that arise here. -/
def decConcat (a b : Nat) : Nat := a * 10 ^ digits10 b + b

/-- Operand reaching a branch handler.  `getRelative` returns a number when
bit 7 of the displacement byte is set; otherwise it returns its argument
unchanged, and since the dispatcher passes the whole operand array to the
addressing handler (it does not spread it), the branch handler then receives
the array itself. -/
inductive RelOp where
  | num (d : Int)
  | arr (xs : List Nat)

/-- The branch-target computation `(pc + displacement) & 0xFFFF`.  With a
numeric displacement this is 16-bit wrapping addition.  With an array operand
JS `+` string-concatenates: a one-element array yields decimal concatenation,
the empty array leaves `pc`, and a longer array stringifies with a comma,
giving NaN and hence 0 after the mask. -/
def relAdd (pc : Nat) (displacement : RelOp) : Nat :=
  match displacement with
  | .num d => and16i ((pc : Int) + d)
  | .arr [] => and16 pc
  | .arr [o] => and16 (decConcat pc o)
  | .arr _ => 0

/-- `ADC`: add memory and carry to the accumulator. -/
def ADC (memory_location : Nat) (c : Core) : Core :=
  let value := c.mainMemory memory_location
  let carry : Nat := if c.status &&& 0x01 ≠ 0 then 1 else 0
  let result0 := c.a + value + carry
  let st := flagWrite (result0 > 0xFF) 0x01 c.status
  let result := and8 result0
  let st := flagWrite ((c.a ^^^ value) &&& 0x80 = 0 ∧ (c.a ^^^ result) &&& 0x80 ≠ 0) 0x40 st
  { c with a := result, status := znFlags result st }

/-- `AND`. -/
def AND (memory_location : Nat) (c : Core) : Core :=
  let value := c.mainMemory memory_location
  let a := c.a &&& value
  { c with a := a, status := znFlags a c.status }

/-- `ASL`: arithmetic shift left of the accumulator or of a memory byte. -/
def ASL (memory_location : AccOrAddr) (c : Core) : Core :=
  match memory_location with
  | .accumulator =>
    let st := flagWrite (c.a &&& 0x80 ≠ 0) 0x01 c.status
    let a := and8 (c.a <<< 1)
    { c with a := a, status := znFlags a st }
  | .addr n =>
    let value := c.mainMemory n
    let st := flagWrite (value &&& 0x80 ≠ 0) 0x01 c.status
    let mem := memWrite c.mainMemory n (and8 (value <<< 1))
    { c with mainMemory := mem, status := znFlags (mem n) st }

/-- `BCC`: branch when the carry flag (bit 0) is clear. -/
def BCC (displacement : RelOp) (c : Core) : Core :=
  if c.status &&& 0x01 = 0 then { c with pc := relAdd c.pc displacement } else c

/-- `BCS`: branch when the carry flag (bit 0) is set. -/
def BCS (displacement : RelOp) (c : Core) : Core :=
  if c.status &&& 0x01 ≠ 0 then { c with pc := relAdd c.pc displacement } else c

/-- `BEQ`: branch when the zero flag (bit 1) is set. -/
def BEQ (displacement : RelOp) (c : Core) : Core :=
  if c.status &&& 0x02 ≠ 0 then { c with pc := relAdd c.pc displacement } else c

/-- `BIT`: the source copies bit 3 of the memory value (mask 0x08) into the
negative flag, exactly as written in `execute.js`. -/
def BIT (memory_location : Nat) (c : Core) : Core :=
  let value := c.mainMemory memory_location
  let result := c.a &&& value
  let st := flagWrite (result = 0) 0x02 c.status
  let st := flagWrite (value &&& 0x08 ≠ 0) 0x80 st
  let st := flagWrite (value &&& 0x40 ≠ 0) 0x40 st
  { c with status := st }

/-- `BMI`: branch when the negative flag (bit 7) is set. -/
def BMI (displacement : RelOp) (c : Core) : Core :=
  if c.status &&& 0x80 ≠ 0 then { c with pc := relAdd c.pc displacement } else c

/-- `BNE`: branch when the zero flag (bit 1) is clear. -/
def BNE (displacement : RelOp) (c : Core) : Core :=
  if c.status &&& 0x02 = 0 then { c with pc := relAdd c.pc displacement } else c

/-- `BPL`: branch when the negative flag (bit 7) is clear. -/
def BPL (displacement : RelOp) (c : Core) : Core :=
  if c.status &&& 0x80 = 0 then { c with pc := relAdd c.pc displacement } else c

/-- `BRK`: push the return address and the status (with the break flag set),
then load the PC from the vector at 0xFFFE/0xFFFF. -/
def BRK (c : Core) : Core :=
  let returnAddress := and16 (c.pc + 1)
  let mem := memWrite c.mainMemory (0x0100 + c.sp) (and8 (returnAddress >>> 8))
  let sp := and8i ((c.sp : Int) - 1)
  let mem := memWrite mem (0x0100 + sp) (and8 returnAddress)
  let sp := and8i ((sp : Int) - 1)
  let st := c.status ||| 0x10
  let mem := memWrite mem (0x0100 + sp) st
  let sp := and8i ((sp : Int) - 1)
  let pc := and16 ((mem 0xFFFF <<< 8) ||| mem 0xFFFE)
  { c with pc := pc, sp := sp, status := st, mainMemory := mem }

/-- `BVC`: the source tests `status & 0x04` (bit 2), exactly as written in
`execute.js`. -/
def BVC (displacement : RelOp) (c : Core) : Core :=
  if c.status &&& 0x04 = 0 then { c with pc := relAdd c.pc displacement } else c

/-- `BVS`: the source tests `status & 0x04` (bit 2), exactly as written in
`execute.js`. -/
def BVS (displacement : RelOp) (c : Core) : Core :=
  if c.status &&& 0x04 ≠ 0 then { c with pc := relAdd c.pc displacement } else c

/-- `CLC`. -/
def CLC (c : Core) : Core := { c with status := c.status &&& jsNot 0x01 }

/-- `CLD`. -/
def CLD (c : Core) : Core := { c with status := c.status &&& jsNot 0x08 }

/-- `CLI`. -/
def CLI (c : Core) : Core := { c with status := c.status &&& jsNot 0x04 }

/-- `CLV`. -/
def CLV (c : Core) : Core := { c with status := c.status &&& jsNot 0x40 }

/-- `CMP`: the source masks the difference to a byte first and then tests
`result >= 0` on the masked (hence non-negative) value, exactly as written. -/
def CMP (memory_location : Nat) (c : Core) : Core :=
  let value := c.mainMemory memory_location
  let result := and8i ((c.a : Int) - value)
  let st := flagWrite (0 ≤ result) 0x01 c.status
  { c with status := znFlags result st }

/-- `CPX`: same structure as `CMP`, on the X register. -/
def CPX (memory_location : Nat) (c : Core) : Core :=
  let value := c.mainMemory memory_location
  let result := and8i ((c.x : Int) - value)
  let st := flagWrite (0 ≤ result) 0x01 c.status
  { c with status := znFlags result st }

/-- `CPY`: same structure as `CMP`, on the Y register. -/
def CPY (memory_location : Nat) (c : Core) : Core :=
  let value := c.mainMemory memory_location
  let result := and8i ((c.y : Int) - value)
  let st := flagWrite (0 ≤ result) 0x01 c.status
  { c with status := znFlags result st }

/-- `DEC`. -/
def DEC (memory_location : Nat) (c : Core) : Core :=
  let value := c.mainMemory memory_location
  let result := and8i ((value : Int) - 1)
  let mem := memWrite c.mainMemory memory_location result
  { c with mainMemory := mem, status := znFlags result c.status }

/-- `DEX`. -/
def DEX (c : Core) : Core :=
  let result := and8i ((c.x : Int) - 1)
  { c with x := result, status := znFlags result c.status }

/-- `DEY`. -/
def DEY (c : Core) : Core :=
  let result := and8i ((c.y : Int) - 1)
  { c with y := result, status := znFlags result c.status }

/-- `EOR`. -/
def EOR (memory_location : Nat) (c : Core) : Core :=
  let value := c.mainMemory memory_location
  let a := c.a ^^^ value
  { c with a := a, status := znFlags a c.status }

/-- `INC`. -/
def INC (memory_location : Nat) (c : Core) : Core :=
  let value := c.mainMemory memory_location
  let result := and8 (value + 1)
  let mem := memWrite c.mainMemory memory_location result
  { c with mainMemory := mem, status := znFlags result c.status }

/-- `INX` as implemented: the source computes `(x - 1) & 0xFF` (its comment
says it adds one), exactly as written in `execute.js`. -/
def INX (c : Core) : Core :=
  let result := and8i ((c.x : Int) - 1)
  { c with x := result, status := znFlags result c.status }

/-- `INY` as implemented: the source computes `(y - 1) & 0xFF` (its comment
says it adds one), exactly as written in `execute.js`. -/
def INY (c : Core) : Core :=
  let result := and8i ((c.y : Int) - 1)
  { c with y := result, status := znFlags result c.status }

/-- `JMP`. -/
def JMP (memory_location : Nat) (c : Core) : Core :=
  { c with pc := and16 memory_location }

/-- `JSR`: pushes `pc - 1` (high byte first) and jumps. -/
def JSR (memory_location : Nat) (c : Core) : Core :=
  let returnAddress := and16i ((c.pc : Int) - 1)
  let mem := memWrite c.mainMemory (0x0100 + c.sp) (and8 (returnAddress >>> 8))
  let sp := and8i ((c.sp : Int) - 1)
  let mem := memWrite mem (0x0100 + sp) (and8 returnAddress)
  let sp := and8i ((sp : Int) - 1)
  { c with pc := and16 memory_location, sp := sp, mainMemory := mem }

/-- `LDA`. -/
def LDA (memory_location : Nat) (c : Core) : Core :=
  let value := c.mainMemory memory_location
  { c with a := value, status := znFlags value c.status }

/-- `LDX`. -/
def LDX (memory_location : Nat) (c : Core) : Core :=
  let value := c.mainMemory memory_location
  { c with x := value, status := znFlags value c.status }

/-- `LDY`. -/
def LDY (memory_location : Nat) (c : Core) : Core :=
  let value := c.mainMemory memory_location
  { c with y := value, status := znFlags value c.status }

/-- `LSR`. -/
def LSR (memory_location : AccOrAddr) (c : Core) : Core :=
  match memory_location with
  | .accumulator =>
    let st := flagWrite (c.a &&& 0x01 ≠ 0) 0x01 c.status
    let a := and8 (c.a >>> 1)
    { c with a := a, status := znFlags a st }
  | .addr n =>
    let value := c.mainMemory n
    let st := flagWrite (value &&& 0x01 ≠ 0) 0x01 c.status
    let mem := memWrite c.mainMemory n (and8 (value >>> 1))
    { c with mainMemory := mem, status := znFlags (mem n) st }

/-- `NOP`. -/
def NOP (c : Core) : Core := c

/-- `ORA`. -/
def ORA (memory_location : Nat) (c : Core) : Core :=
  let value := c.mainMemory memory_location
  let a := c.a ||| value
  { c with a := a, status := znFlags a c.status }

/-- `PHA`. -/
def PHA (c : Core) : Core :=
  let mem := memWrite c.mainMemory (0x0100 + c.sp) c.a
  { c with mainMemory := mem, sp := and8i ((c.sp : Int) - 1) }

/-- `PHP`: the source first sets bits 4 and 5 in the live status register and
then pushes that updated value. -/
def PHP (c : Core) : Core :=
  let st := c.status ||| 0x30
  let mem := memWrite c.mainMemory (0x0100 + c.sp) st
  { c with status := st, mainMemory := mem, sp := and8i ((c.sp : Int) - 1) }

/-- `PLA`. -/
def PLA (c : Core) : Core :=
  let sp := and8 (c.sp + 1)
  let a := c.mainMemory (0x0100 + sp)
  { c with sp := sp, a := a, status := znFlags a c.status }

/-- `PLP`: pulls the status, clearing the break flag and the unused bit. -/
def PLP (c : Core) : Core :=
  let sp := and8 (c.sp + 1)
  { c with sp := sp, status := c.mainMemory (0x0100 + sp) &&& jsNot 0x30 }

/-- `ROL`. -/
def ROL (memory_location : AccOrAddr) (c : Core) : Core :=
  let carry := c.status &&& 0x01
  match memory_location with
  | .accumulator =>
    let st := flagWrite (c.a &&& 0x80 ≠ 0) 0x01 c.status
    let a := and8 (c.a <<< 1) ||| carry
    { c with a := a, status := znFlags a st }
  | .addr n =>
    let value := c.mainMemory n
    let st := flagWrite (value &&& 0x80 ≠ 0) 0x01 c.status
    let mem := memWrite c.mainMemory n (and8 (value <<< 1))
    let mem := memWrite mem n (mem n ||| carry)
    { c with mainMemory := mem, status := znFlags (mem n) st }

/-- `ROR`. -/
def ROR (memory_location : AccOrAddr) (c : Core) : Core :=
  let carry := c.status &&& 0x01
  match memory_location with
  | .accumulator =>
    let st := flagWrite (c.a &&& 0x01 ≠ 0) 0x01 c.status
    let a := and8 (c.a >>> 1) ||| (carry <<< 7)
    { c with a := a, status := znFlags a st }
  | .addr n =>
    let value := c.mainMemory n
    let st := flagWrite (value &&& 0x01 ≠ 0) 0x01 c.status
    let mem := memWrite c.mainMemory n (and8 (value >>> 1))
    let mem := memWrite mem n (mem n ||| (carry <<< 7))
    { c with mainMemory := mem, status := znFlags (mem n) st }

/-- `RTI`: pulls status (clearing break/unused), then PC low, then PC high. -/
def RTI (c : Core) : Core :=
  let sp := and8 (c.sp + 1)
  let st := c.mainMemory (0x0100 + sp) &&& jsNot 0x30
  let sp := and8 (sp + 1)
  let PC_low := c.mainMemory (0x0100 + sp)
  let sp := and8 (sp + 1)
  let PC_high := c.mainMemory (0x0100 + sp)
  { c with sp := sp, status := st, pc := and16 ((PC_high <<< 8) ||| PC_low) }

/-- `RTS`: pulls the return address and adds one. -/
def RTS (c : Core) : Core :=
  let sp := and8 (c.sp + 1)
  let PC_low := c.mainMemory (0x0100 + sp)
  let sp := and8 (sp + 1)
  let PC_high := c.mainMemory (0x0100 + sp)
  let pc := and16 ((PC_high <<< 8) ||| PC_low)
  { c with sp := sp, pc := and16 (pc + 1) }

/-- `SBC`. -/
def SBC (memory_location : Nat) (c : Core) : Core :=
  let value := c.mainMemory memory_location
  let carry : Nat := if c.status &&& 0x01 ≠ 0 then 1 else 0
  let result0 : Int := (c.a : Int) - value - (1 - carry)
  let st := if result0 < 0 then c.status &&& jsNot 0x01 else c.status ||| 0x01
  let result := and8i result0
  let st := flagWrite ((c.a ^^^ value) &&& 0x80 ≠ 0 ∧ (c.a ^^^ result) &&& 0x80 ≠ 0) 0x40 st
  { c with a := result, status := znFlags result st }

/-- `SEC`. -/
def SEC (c : Core) : Core := { c with status := c.status ||| 0x01 }

/-- `SED`. -/
def SED (c : Core) : Core := { c with status := c.status ||| 0x08 }

/-- `SEI`. -/
def SEI (c : Core) : Core := { c with status := c.status ||| 0x04 }

/-- `STA`. -/
def STA (memory_location : Nat) (c : Core) : Core :=
  { c with mainMemory := memWrite c.mainMemory memory_location c.a }

/-- `STX`. -/
def STX (memory_location : Nat) (c : Core) : Core :=
  { c with mainMemory := memWrite c.mainMemory memory_location c.x }

/-- `STY`. -/
def STY (memory_location : Nat) (c : Core) : Core :=
  { c with mainMemory := memWrite c.mainMemory memory_location c.y }

/-- `TAX`. -/
def TAX (c : Core) : Core :=
  let x := c.a
  { c with x := x, status := znFlags x c.status }

/-- `TAY`. -/
def TAY (c : Core) : Core :=
  let y := c.a
  { c with y := y, status := znFlags y c.status }

/-- `TSX`. -/
def TSX (c : Core) : Core :=
  let x := c.sp
  { c with x := x, status := znFlags x c.status }

/-- `TXA`. -/
def TXA (c : Core) : Core :=
  let a := c.x
  { c with a := a, status := znFlags a c.status }

/-- `TXS`. -/
def TXS (c : Core) : Core := { c with sp := c.x }

/-- `TYA`. -/
def TYA (c : Core) : Core :=
  let a := c.y
  { c with a := a, status := znFlags a c.status }

/-! ### Opcode table, dispatcher and fetch-decode-execute loop

From the `main.js` revision holding `cpuCycle` (src/unnamed/part_000, lines
170..236) and the opcode matrix of `decode.js`. -/

/-- An entry of the opcode matrix: mnemonic, addressing-mode tag and size come
from the source's `decode.js`.

The `cycles` field is Modelled from the spec: the opcode-table revision
under src leaves the per-instruction cycle count as a TODO while the
`decodeInstruction` in src reads `instruction.cycles`; the spec requires each
entry to carry a base cycle cost (a small positive integer), so the standard
6502 base cycle counts are supplied here. -/
structure OpCode where
  instruction_name : String
  addressing_mode : String
  size : Nat
  cycles : Nat

/-- The `opcode_matrix` of `decode.js`: only legal opcodes have entries. -/
def opcode_matrix (opcode : Nat) : Option OpCode :=
  match opcode with
  | 0x00 => some ⟨"BRK", "impl", 1, 7⟩
  | 0x01 => some ⟨"ORA", "X,ind", 2, 6⟩
  | 0x05 => some ⟨"ORA", "zpg", 2, 3⟩
  | 0x06 => some ⟨"ASL", "zpg", 2, 5⟩
  | 0x08 => some ⟨"PHP", "impl", 1, 3⟩
  | 0x09 => some ⟨"ORA", "#", 2, 2⟩
  | 0x0A => some ⟨"ASL", "A", 1, 2⟩
  | 0x0D => some ⟨"ORA", "abs", 3, 4⟩
  | 0x0E => some ⟨"ASL", "abs", 3, 6⟩
  | 0x10 => some ⟨"BPL", "rel", 2, 2⟩
  | 0x11 => some ⟨"ORA", "ind,Y", 2, 5⟩
  | 0x15 => some ⟨"ORA", "zpg,X", 2, 4⟩
  | 0x16 => some ⟨"ASL", "zpg,X", 2, 6⟩
  | 0x18 => some ⟨"CLC", "impl", 1, 2⟩
  | 0x19 => some ⟨"ORA", "abs,Y", 3, 4⟩
  | 0x1D => some ⟨"ORA", "abs,X", 3, 4⟩
  | 0x1E => some ⟨"ASL", "abs,X", 3, 7⟩
  | 0x20 => some ⟨"JSR", "abs", 3, 6⟩
  | 0x21 => some ⟨"AND", "X,ind", 2, 6⟩
  | 0x24 => some ⟨"BIT", "zpg", 2, 3⟩
  | 0x25 => some ⟨"AND", "zpg", 2, 3⟩
  | 0x26 => some ⟨"ROL", "zpg", 2, 5⟩
  | 0x28 => some ⟨"PLP", "impl", 1, 4⟩
  | 0x29 => some ⟨"AND", "#", 2, 2⟩
  | 0x2A => some ⟨"ROL", "A", 1, 2⟩
  | 0x2C => some ⟨"BIT", "abs", 3, 4⟩
  | 0x2D => some ⟨"AND", "abs", 3, 4⟩
  | 0x2E => some ⟨"ROL", "abs", 3, 6⟩
  | 0x30 => some ⟨"BMI", "rel", 2, 2⟩
  | 0x31 => some ⟨"AND", "ind,Y", 2, 5⟩
  | 0x35 => some ⟨"AND", "zpg,X", 2, 4⟩
  | 0x36 => some ⟨"ROL", "zpg,X", 2, 6⟩
  | 0x38 => some ⟨"SEC", "impl", 1, 2⟩
  | 0x39 => some ⟨"AND", "abs,Y", 3, 4⟩
  | 0x3D => some ⟨"AND", "abs,X", 3, 4⟩
  | 0x3E => some ⟨"ROL", "abs,X", 3, 7⟩
  | 0x40 => some ⟨"RTI", "impl", 1, 6⟩
  | 0x41 => some ⟨"EOR", "X,ind", 2, 6⟩
  | 0x45 => some ⟨"EOR", "zpg", 2, 3⟩
  | 0x46 => some ⟨"LSR", "zpg", 2, 5⟩
  | 0x48 => some ⟨"PHA", "impl", 1, 3⟩
  | 0x49 => some ⟨"EOR", "#", 2, 2⟩
  | 0x4A => some ⟨"LSR", "A", 1, 2⟩
  | 0x4C => some ⟨"JMP", "abs", 3, 3⟩
  | 0x4D => some ⟨"EOR", "abs", 3, 4⟩
  | 0x4E => some ⟨"LSR", "abs", 3, 6⟩
  | 0x50 => some ⟨"BVC", "rel", 2, 2⟩
  | 0x51 => some ⟨"EOR", "ind,Y", 2, 5⟩
  | 0x55 => some ⟨"EOR", "zpg,X", 2, 4⟩
  | 0x56 => some ⟨"LSR", "zpg,X", 2, 6⟩
  | 0x58 => some ⟨"CLI", "impl", 1, 2⟩
  | 0x59 => some ⟨"EOR", "abs,Y", 3, 4⟩
  | 0x5D => some ⟨"EOR", "abs,X", 3, 4⟩
  | 0x5E => some ⟨"LSR", "abs,X", 3, 7⟩
  | 0x60 => some ⟨"RTS", "impl", 1, 6⟩
  | 0x61 => some ⟨"ADC", "X,ind", 2, 6⟩
  | 0x65 => some ⟨"ADC", "zpg", 2, 3⟩
  | 0x66 => some ⟨"ROR", "zpg", 2, 5⟩
  | 0x68 => some ⟨"PLA", "impl", 1, 4⟩
  | 0x69 => some ⟨"ADC", "#", 2, 2⟩
  | 0x6A => some ⟨"ROR", "A", 1, 2⟩
  | 0x6C => some ⟨"JMP", "ind", 3, 5⟩
  | 0x6D => some ⟨"ADC", "abs", 3, 4⟩
  | 0x6E => some ⟨"ROR", "abs", 3, 6⟩
  | 0x70 => some ⟨"BVS", "rel", 2, 2⟩
  | 0x71 => some ⟨"ADC", "ind,Y", 2, 5⟩
  | 0x75 => some ⟨"ADC", "zpg,X", 2, 4⟩
  | 0x76 => some ⟨"ROR", "zpg,X", 2, 6⟩
  | 0x78 => some ⟨"SEI", "impl", 1, 2⟩
  | 0x79 => some ⟨"ADC", "abs,Y", 3, 4⟩
  | 0x7D => some ⟨"ADC", "abs,X", 3, 4⟩
  | 0x7E => some ⟨"ROR", "abs,X", 3, 7⟩
  | 0x81 => some ⟨"STA", "X,ind", 2, 6⟩
  | 0x84 => some ⟨"STY", "zpg", 2, 3⟩
  | 0x85 => some ⟨"STA", "zpg", 2, 3⟩
  | 0x86 => some ⟨"STX", "zpg", 2, 3⟩
  | 0x88 => some ⟨"DEY", "impl", 1, 2⟩
  | 0x8A => some ⟨"TXA", "impl", 1, 2⟩
  | 0x8C => some ⟨"STY", "abs", 3, 4⟩
  | 0x8D => some ⟨"STA", "abs", 3, 4⟩
  | 0x8E => some ⟨"STX", "abs", 3, 4⟩
  | 0x90 => some ⟨"BCC", "rel", 2, 2⟩
  | 0x91 => some ⟨"STA", "ind,Y", 2, 6⟩
  | 0x94 => some ⟨"STY", "zpg,X", 2, 4⟩
  | 0x95 => some ⟨"STA", "zpg,X", 2, 4⟩
  | 0x96 => some ⟨"STX", "zpg,Y", 2, 4⟩
  | 0x98 => some ⟨"TYA", "impl", 1, 2⟩
  | 0x99 => some ⟨"STA", "abs,Y", 3, 5⟩
  | 0x9A => some ⟨"TXS", "impl", 1, 2⟩
  | 0x9D => some ⟨"STA", "abs,X", 3, 5⟩
  | 0xA0 => some ⟨"LDY", "#", 2, 2⟩
  | 0xA1 => some ⟨"LDA", "X,ind", 2, 6⟩
  | 0xA2 => some ⟨"LDX", "#", 2, 2⟩
  | 0xA4 => some ⟨"LDY", "zpg", 2, 3⟩
  | 0xA5 => some ⟨"LDA", "zpg", 2, 3⟩
  | 0xA6 => some ⟨"LDX", "zpg", 2, 3⟩
  | 0xA8 => some ⟨"TAY", "impl", 1, 2⟩
  | 0xA9 => some ⟨"LDA", "#", 2, 2⟩
  | 0xAA => some ⟨"TAX", "impl", 1, 2⟩
  | 0xAC => some ⟨"LDY", "abs", 3, 4⟩
  | 0xAD => some ⟨"LDA", "abs", 3, 4⟩
  | 0xAE => some ⟨"LDX", "abs", 3, 4⟩
  | 0xB0 => some ⟨"BCS", "rel", 2, 2⟩
  | 0xB1 => some ⟨"LDA", "ind,Y", 2, 5⟩
  | 0xB4 => some ⟨"LDY", "zpg,X", 2, 4⟩
  | 0xB5 => some ⟨"LDA", "zpg,X", 2, 4⟩
  | 0xB6 => some ⟨"LDX", "zpg,Y", 2, 4⟩
  | 0xB8 => some ⟨"CLV", "impl", 1, 2⟩
  | 0xB9 => some ⟨"LDA", "abs,Y", 3, 4⟩
  | 0xBA => some ⟨"TSX", "impl", 1, 2⟩
  | 0xBC => some ⟨"LDY", "abs,X", 3, 4⟩
  | 0xBD => some ⟨"LDA", "abs,X", 3, 4⟩
  | 0xBE => some ⟨"LDX", "abs,Y", 3, 4⟩
  | 0xC0 => some ⟨"CPY", "#", 2, 2⟩
  | 0xC1 => some ⟨"CMP", "X,ind", 2, 6⟩
  | 0xC4 => some ⟨"CPY", "zpg", 2, 3⟩
  | 0xC5 => some ⟨"CMP", "zpg", 2, 3⟩
  | 0xC6 => some ⟨"DEC", "zpg", 2, 5⟩
  | 0xC8 => some ⟨"INY", "impl", 1, 2⟩
  | 0xC9 => some ⟨"CMP", "#", 2, 2⟩
  | 0xCA => some ⟨"DEX", "impl", 1, 2⟩
  | 0xCC => some ⟨"CPY", "abs", 3, 4⟩
  | 0xCD => some ⟨"CMP", "abs", 3, 4⟩
  | 0xCE => some ⟨"DEC", "abs", 3, 6⟩
  | 0xD0 => some ⟨"BNE", "rel", 2, 2⟩
  | 0xD1 => some ⟨"CMP", "ind,Y", 2, 5⟩
  | 0xD5 => some ⟨"CMP", "zpg,X", 2, 4⟩
  | 0xD6 => some ⟨"DEC", "zpg,X", 2, 6⟩
  | 0xD8 => some ⟨"CLD", "impl", 1, 2⟩
  | 0xD9 => some ⟨"CMP", "abs,Y", 3, 4⟩
  | 0xDD => some ⟨"CMP", "abs,X", 3, 4⟩
  | 0xDE => some ⟨"DEC", "abs,X", 3, 7⟩
  | 0xE0 => some ⟨"CPX", "#", 2, 2⟩
  | 0xE1 => some ⟨"SBC", "X,ind", 2, 6⟩
  | 0xE4 => some ⟨"CPX", "zpg", 2, 3⟩
  | 0xE5 => some ⟨"SBC", "zpg", 2, 3⟩
  | 0xE6 => some ⟨"INC", "zpg", 2, 5⟩
  | 0xE8 => some ⟨"INX", "impl", 1, 2⟩
  | 0xE9 => some ⟨"SBC", "#", 2, 2⟩
  | 0xEA => some ⟨"NOP", "impl", 1, 2⟩
  | 0xEC => some ⟨"CPX", "abs", 3, 4⟩
  | 0xED => some ⟨"SBC", "abs", 3, 4⟩
  | 0xEE => some ⟨"INC", "abs", 3, 6⟩
  | 0xF0 => some ⟨"BEQ", "rel", 2, 2⟩
  | 0xF1 => some ⟨"SBC", "ind,Y", 2, 5⟩
  | 0xF5 => some ⟨"SBC", "zpg,X", 2, 4⟩
  | 0xF6 => some ⟨"INC", "zpg,X", 2, 6⟩
  | 0xF8 => some ⟨"SED", "impl", 1, 2⟩
  | 0xF9 => some ⟨"SBC", "abs,Y", 3, 4⟩
  | 0xFD => some ⟨"SBC", "abs,X", 3, 4⟩
  | 0xFE => some ⟨"INC", "abs,X", 3, 7⟩
  | _ => none

/-- `ToInt32(ToNumber(xs))` for an argument array `xs` used in a numeric
(bitwise or comparison) position: a one-element array coerces through its
string form to its element; the empty array coerces to 0; a longer array
stringifies with a comma, giving NaN and hence 0. -/
def jsNumOfArr (xs : List Nat) : Nat :=
  match xs with
  | [o] => o
  | _ => 0

/-- JS `xs + n` where `xs` is an argument array and `n` a number: string
concatenation.  A one-element array yields decimal concatenation, the empty
array yields `n`, and a longer array gives NaN (comma) and hence 0 after a
subsequent mask. -/
def jsArrPlusNum (xs : List Nat) (n : Nat) : Nat :=
  match xs with
  | [] => n
  | [o] => decConcat o n
  | _ => 0

/-- Value produced by an addressing-mode handler as received by an
instruction handler through the dispatcher. -/
inductive Resolved where
  | racc
  | rnull
  | raddr (n : Nat)
  | rrel (r : RelOp)

/-- `address_mode_handlers[addressing_mode](args)` as called from
`executeInstruction`: the handler is applied to the whole argument array (the
source does not spread it), so the two-operand handlers receive the array as
their first parameter and `undefined` (which coerces to 0) as their second;
the coercions of the array in each numeric position are spelled out via
`jsNumOfArr` and `jsArrPlusNum`. -/
def address_mode_resolve (mode : String) (args : List Nat) (c : Core) : Resolved :=
  match mode with
  | "A" => .racc
  | "abs" => .raddr ((0 <<< 8) ||| jsNumOfArr args)
  | "abs,X" => .raddr (and16 (((0 <<< 8) ||| jsNumOfArr args) + c.x))
  | "abs,Y" => .raddr (and16 (((0 <<< 8) ||| jsNumOfArr args) + c.y))
  | "#" => .raddr (getImmediate c.pc)
  | "impl" => .rnull
  | "ind" =>
    let addressL := and16 ((0 <<< 8) ||| jsNumOfArr args)
    let addressH := and16 ((0 <<< 8) ||| and8 (jsArrPlusNum args 1))
    .raddr (and16 ((c.mainMemory addressH <<< 8) ||| c.mainMemory addressL))
  | "X,ind" =>
    let address := and8 (jsArrPlusNum args c.x)
    .raddr (and16 (c.mainMemory address ||| (c.mainMemory (and8 (address + 1)) <<< 8)))
  | "ind,Y" =>
    let address := and8 (jsNumOfArr args)
    .raddr (and16 ((c.mainMemory address ||| (c.mainMemory (and8 (address + 1)) <<< 8)) + c.y))
  | "rel" =>
    if jsNumOfArr args &&& 0x80 ≠ 0 then .rrel (.num ((jsNumOfArr args : Int) - 256))
    else .rrel (.arr args)
  | "zpg" => .raddr (and8 (jsNumOfArr args))
  | "zpg,X" => .raddr (and8 (jsArrPlusNum args c.x))
  | "zpg,Y" => .raddr (and8 (jsArrPlusNum args c.y))
  | _ => .rnull

/-- `executeInstruction`: resolve the operand for the addressing mode, then
dispatch on the mnemonic (the source looks the handler up dynamically in the
`execute` module; every mnemonic of the opcode matrix names a handler, and an
unknown name executes nothing). -/
def executeInstruction (instruction_name addressing_mode : String) (args : List Nat)
    (c : Core) : Core :=
  let op := address_mode_resolve addressing_mode args c
  match instruction_name, op with
  | "ADC", .raddr n => ADC n c
  | "AND", .raddr n => AND n c
  | "ASL", .racc => ASL .accumulator c
  | "ASL", .raddr n => ASL (.addr n) c
  | "BCC", .rrel r => BCC r c
  | "BCS", .rrel r => BCS r c
  | "BEQ", .rrel r => BEQ r c
  | "BIT", .raddr n => BIT n c
  | "BMI", .rrel r => BMI r c
  | "BNE", .rrel r => BNE r c
  | "BPL", .rrel r => BPL r c
  | "BRK", _ => BRK c
  | "BVC", .rrel r => BVC r c
  | "BVS", .rrel r => BVS r c
  | "CLC", _ => CLC c
  | "CLD", _ => CLD c
  | "CLI", _ => CLI c
  | "CLV", _ => CLV c
  | "CMP", .raddr n => CMP n c
  | "CPX", .raddr n => CPX n c
  | "CPY", .raddr n => CPY n c
  | "DEC", .raddr n => DEC n c
  | "DEX", _ => DEX c
  | "DEY", _ => DEY c
  | "EOR", .raddr n => EOR n c
  | "INC", .raddr n => INC n c
  | "INX", _ => INX c
  | "INY", _ => INY c
  | "JMP", .raddr n => JMP n c
  | "JSR", .raddr n => JSR n c
  | "LDA", .raddr n => LDA n c
  | "LDX", .raddr n => LDX n c
  | "LDY", .raddr n => LDY n c
  | "LSR", .racc => LSR .accumulator c
  | "LSR", .raddr n => LSR (.addr n) c
  | "NOP", _ => NOP c
  | "ORA", .raddr n => ORA n c
  | "PHA", _ => PHA c
  | "PHP", _ => PHP c
  | "PLA", _ => PLA c
  | "PLP", _ => PLP c
  | "ROL", .racc => ROL .accumulator c
  | "ROL", .raddr n => ROL (.addr n) c
  | "ROR", .racc => ROR .accumulator c
  | "ROR", .raddr n => ROR (.addr n) c
  | "RTI", _ => RTI c
  | "RTS", _ => RTS c
  | "SBC", .raddr n => SBC n c
  | "SEC", _ => SEC c
  | "SED", _ => SED c
  | "SEI", _ => SEI c
  | "STA", .raddr n => STA n c
  | "STX", .raddr n => STX n c
  | "STY", .raddr n => STY n c
  | "TAX", _ => TAX c
  | "TAY", _ => TAY c
  | "TSX", _ => TSX c
  | "TXA", _ => TXA c
  | "TXS", _ => TXS c
  | "TYA", _ => TYA c
  | _, _ => c

/-- The CPU core together with the cycle bookkeeping of `main.js`.  The
remaining-cycle counter is a JS number that is decremented below zero after a
failed decode, hence an `Int`. -/
structure Machine where
  core : Core
  currentInstructionCycles : Int
  totalCycles : Nat

/-- `decodeInstruction`: fetch the opcode at PC; if it has no table entry,
report it (the source logs `Unknown opcode` with the byte) and return with no
state change.  Otherwise store the entry's cycle count, read the operand
bytes from the pre-advance PC offsets, advance PC by the instruction size
(the source performs `pc += instruction.size` with no 16-bit mask), and
execute. -/
def decodeInstruction (m : Machine) : Machine × Option Nat :=
  let opcode := m.core.mainMemory m.core.pc
  match opcode_matrix opcode with
  | none => (m, some opcode)
  | some instruction =>
    let m := { m with currentInstructionCycles := (instruction.cycles : Int) }
    if instruction.size = 1 then
      let args : List Nat := []
      let c := { m.core with pc := m.core.pc + instruction.size }
      let c := executeInstruction instruction.instruction_name instruction.addressing_mode args c
      ({ m with core := c }, none)
    else if instruction.size = 2 then
      let operand := m.core.mainMemory (m.core.pc + 1)
      let args : List Nat := [operand]
      let c := { m.core with pc := m.core.pc + instruction.size }
      let c := executeInstruction instruction.instruction_name instruction.addressing_mode args c
      ({ m with core := c }, none)
    else
      let operand1 := m.core.mainMemory (m.core.pc + 1)
      let operand2 := m.core.mainMemory (m.core.pc + 2)
      let args : List Nat := [operand1, operand2]
      let c := { m.core with pc := m.core.pc + instruction.size }
      let c := executeInstruction instruction.instruction_name instruction.addressing_mode args c
      ({ m with core := c }, none)

/-- What one `cpuCycle` call reports: whether a new instruction was
dispatched (decoded and executed) on this tick, and the unknown-opcode byte
when the decode failed. -/
structure StepInfo where
  dispatched : Bool
  decodeError : Option Nat

/-- `cpuCycle`: when the remaining-cycle counter is zero, decode and execute
the next instruction; in every case decrement the counter and increment the
lifetime total. -/
def cpuCycle (m : Machine) : Machine × StepInfo :=
  let (m1, info) :=
    if m.currentInstructionCycles = 0 then
      let (m2, err) := decodeInstruction m
      (m2, StepInfo.mk err.isNone err)
    else (m, StepInfo.mk false none)
  ({ m1 with currentInstructionCycles := m1.currentInstructionCycles - 1,
             totalCycles := m1.totalCycles + 1 }, info)

/-- Iterate `cpuCycle` for the given number of ticks. -/
def runTicks (n : Nat) (m : Machine) : Machine :=
  match n with
  | 0 => m
  | n + 1 => runTicks n (cpuCycle m).1

/-- Whether the next `cpuCycle` call would dispatch a new instruction. -/
def dispFlag (m : Machine) : Bool := (cpuCycle m).2.dispatched

/-! ### Bit-level lemmas about the flag updates -/

theorem testBit_jsNot (m j : Nat) (hj : j < 32) : (jsNot m).testBit j = !(m.testBit j) := by
  unfold jsNot
  rw [Nat.testBit_xor]
  have h1 : (0xFFFFFFFF : Nat) = 2 ^ 32 - 1 := by norm_num
  rw [h1, Nat.testBit_two_pow_sub_one]
  simp [hj]

theorem flagWrite_testBit_of_mem (cond : Prop) [Decidable cond] {mask j : Nat}
    (hm : mask.testBit j = true) (hj : j < 32) (st : Nat) :
    (flagWrite cond mask st).testBit j = decide cond := by
  unfold flagWrite
  by_cases h : cond
  · simp [h, Nat.testBit_or, hm]
  · simp [h, Nat.testBit_and, testBit_jsNot _ _ hj, hm]

theorem flagWrite_testBit_of_not_mem (cond : Prop) [Decidable cond] {mask j : Nat}
    (hm : mask.testBit j = false) (hj : j < 32) (st : Nat) :
    (flagWrite cond mask st).testBit j = st.testBit j := by
  unfold flagWrite
  by_cases h : cond
  · simp [h, Nat.testBit_or, hm]
  · simp [h, Nat.testBit_and, testBit_jsNot _ _ hj, hm]

theorem znFlags_testBit_one (result st : Nat) :
    (znFlags result st).testBit 1 = decide (result = 0) := by
  unfold znFlags
  rw [flagWrite_testBit_of_not_mem _ (by decide) (by decide),
    flagWrite_testBit_of_mem _ (by decide) (by decide)]

theorem znFlags_testBit_seven (result st : Nat) :
    (znFlags result st).testBit 7 = decide (result &&& 0x80 ≠ 0) := by
  unfold znFlags
  rw [flagWrite_testBit_of_mem _ (by decide) (by decide)]

theorem znFlags_testBit_other (result st j : Nat) (hj : j < 32) (h1 : j ≠ 1) (h7 : j ≠ 7) :
    (znFlags result st).testBit j = st.testBit j := by
  unfold znFlags
  have e2 : (0x02 : Nat) = 2 ^ 1 := by norm_num
  have e8 : (0x80 : Nat) = 2 ^ 7 := by norm_num
  rw [flagWrite_testBit_of_not_mem _ (by rw [e8, Nat.testBit_two_pow]; simpa using fun h => h7 h.symm) hj,
    flagWrite_testBit_of_not_mem _ (by rw [e2, Nat.testBit_two_pow]; simpa using fun h => h1 h.symm) hj]

/-! ### Claims C1 - C4 -/

/-- A CPU state with `A = X = Y = 0` and every memory byte equal to 1, so
each compare instruction sees `reg < M`. -/
def coreCmp : Core := ⟨0, 0, 0, 0x8000, 0xFD, 0, fun _ => 1⟩

/-- Claim C1, evidence of the code bug: with `A = X = Y = 0` and operand
`M = 1` we have `reg < M`, so the claimed contract requires the carry flag to
be cleared by CMP, CPX and CPY; the code sets it (the source masks the
difference to a byte before testing `result >= 0`, which therefore always
holds), while the zero and negative flags and the registers behave as
claimed. -/
theorem CMP_family_carry_always_set :
    coreCmp.a < coreCmp.mainMemory 0x10
    ∧ (CMP 0x10 coreCmp).status &&& 0x01 = 1
    ∧ (CPX 0x10 coreCmp).status &&& 0x01 = 1
    ∧ (CPY 0x10 coreCmp).status &&& 0x01 = 1 := by
  refine ⟨by decide, by decide, by decide, by decide⟩

/-- A CPU state with `X = Y = 5`. -/
def coreInc : Core := ⟨0, 5, 5, 0x8000, 0xFD, 0, fun _ => 0⟩

/-- Claim C2, evidence of the code bug: from `X = Y = 5`, the claim requires
INX / INY to store 6; the handlers store `(reg - 1) & 0xFF = 4` (the source
subtracts one although its own comments say it adds one). -/
theorem INX_INY_store_decrement :
    coreInc.x = 5 ∧ (INX coreInc).x = 4
    ∧ coreInc.y = 5 ∧ (INY coreInc).y = 4 := by
  refine ⟨by decide, by decide, by decide, by decide⟩

/-- A CPU state whose status has exactly bit 6 (Overflow) set. -/
def coreBv : Core := ⟨0, 0, 0, 0x8000, 0xFD, 0x40, fun _ => 0⟩

/-- A CPU state whose status has exactly bit 2 (InterruptDisable) set. -/
def coreBv2 : Core := ⟨0, 0, 0, 0x8000, 0xFD, 0x04, fun _ => 0⟩

/-- Claim C3, evidence of the code bug: with status `0x40` (bit 6, Overflow,
set; bit 2 clear) the claim requires BVS to branch and BVC not to; the code
does the opposite, and with status `0x04` (bit 2, InterruptDisable, set;
bit 6 clear) the code branches on BVS — the handlers test `status & 0x04`
(bit 2) instead of bit 6. -/
theorem BVC_BVS_test_bit_two :
    Nat.testBit coreBv.status 6 = true
    ∧ (BVS (.num 2) coreBv).pc = 0x8000
    ∧ (BVC (.num 2) coreBv).pc = 0x8002
    ∧ Nat.testBit coreBv2.status 6 = false
    ∧ (BVS (.num 2) coreBv2).pc = 0x8002
    ∧ (BVC (.num 2) coreBv2).pc = 0x8000 := by
  refine ⟨by decide, by decide, by decide, by decide, by decide, by decide⟩

/-- Claim C4: for every CPU state and memory operand, ADC stores
`(A + M + c) & 0xFF` in the accumulator, sets Carry iff `A + M + c > 255`,
sets Overflow iff the operands have equal sign bits and the result's sign
bit differs from A's, and recomputes Zero and Negative from the stored
result (`c` being the incoming carry bit). -/
theorem ADC_spec (memory_location : Nat) (c : Core) :
    (ADC memory_location c).a
        = (c.a + c.mainMemory memory_location
            + (if c.status &&& 0x01 ≠ 0 then 1 else 0)) % 256
    ∧ ((ADC memory_location c).status.testBit 0 = true
        ↔ 255 < c.a + c.mainMemory memory_location
            + (if c.status &&& 0x01 ≠ 0 then 1 else 0))
    ∧ ((ADC memory_location c).status.testBit 6 = true
        ↔ ((c.a ^^^ c.mainMemory memory_location) &&& 0x80 = 0
            ∧ (c.a ^^^ (ADC memory_location c).a) &&& 0x80 ≠ 0))
    ∧ ((ADC memory_location c).status.testBit 1 = true ↔ (ADC memory_location c).a = 0)
    ∧ ((ADC memory_location c).status.testBit 7 = true
        ↔ (ADC memory_location c).a &&& 0x80 ≠ 0) := by
  refine ⟨rfl, ?_, ?_, ?_, ?_⟩
  · show (znFlags _ (flagWrite _ 0x40 (flagWrite _ 0x01 c.status))).testBit 0 = true ↔ _
    rw [znFlags_testBit_other _ _ 0 (by decide) (by decide) (by decide),
      flagWrite_testBit_of_not_mem _ (by decide) (by decide),
      flagWrite_testBit_of_mem _ (by decide) (by decide)]
    simp [and8]
  · show (znFlags _ (flagWrite _ 0x40 (flagWrite _ 0x01 c.status))).testBit 6 = true ↔ _
    rw [znFlags_testBit_other _ _ 6 (by decide) (by decide) (by decide),
      flagWrite_testBit_of_mem _ (by decide) (by decide)]
    simp [ADC, and8]
  · show (znFlags _ (flagWrite _ 0x40 (flagWrite _ 0x01 c.status))).testBit 1 = true ↔ _
    rw [znFlags_testBit_one]
    simp [ADC, and8]
  · show (znFlags _ (flagWrite _ 0x40 (flagWrite _ 0x01 c.status))).testBit 7 = true ↔ _
    rw [znFlags_testBit_seven]
    simp [ADC, and8]

/-! ### Claims C5 and C7: addressing-mode resolvers -/

/-- Combining a high byte shifted left by 8 with a value below 256 by
bitwise or is plain addition. -/
theorem lor_byte_eq_add (hi lo : Nat) (h : lo < 256) : (hi <<< 8) ||| lo = 256 * hi + lo := by
  have h2 : lo < 2 ^ 8 := by omega
  rw [Nat.shiftLeft_eq, Nat.mul_comm, ← Nat.mul_add_lt_is_or h2 hi]

/-- Claim C5, counterexample: the Absolute,X resolver returns the same value
on an input whose low-byte addition crosses a page (base 0x00FF, X = 1) and
on one that does not (base 0x0100, X = 0), so its return value carries no
page-crossed report; the claimed report would have to differ between the two
calls. -/
theorem getAbsoluteX_no_page_cross_report :
    getAbsoluteX 0xFF 0x00 1 = getAbsoluteX 0x00 0x01 0
    ∧ getAbsoluteX 0xFF 0x00 1 = 0x0100
    ∧ ((getAbsolute 0xFF 0x00 &&& 0xFF) + 1 > 0xFF)
    ∧ ¬ ((getAbsolute 0x00 0x01 &&& 0xFF) + 0 > 0xFF) := by
  refine ⟨by decide, by decide, by decide, by decide⟩

/-- Claim C5 (amended): the Absolute,X / Absolute,Y / Indirect,Y resolvers
return only the effective address `(base + reg) mod 65536` (for Indirect,Y
the base is the little-endian word read from zero page); no page-crossed
report is produced. -/
theorem resolver_returns_address_only (operand1 operand2 x y o : Nat) (mem : Nat → Nat)
    (h1 : operand1 ≤ 0xFF) (ho : o ≤ 0xFF) (hm : ∀ a, mem a ≤ 0xFF) :
    getAbsoluteX operand1 operand2 x = (256 * operand2 + operand1 + x) % 65536
    ∧ getAbsoluteY operand1 operand2 y = (256 * operand2 + operand1 + y) % 65536
    ∧ getIndirectYIndexed o y mem
        = (mem o + 256 * mem ((o + 1) % 256) + y) % 65536 := by
  have hL : (operand2 <<< 8) ||| operand1 = 256 * operand2 + operand1 :=
    lor_byte_eq_add _ _ (by omega)
  refine ⟨?_, ?_, ?_⟩
  · simp only [getAbsoluteX, and16, hL, Nat.add_assoc]
  · simp only [getAbsoluteY, and16, hL, Nat.add_assoc]
  · have hoo : o % 256 = o := Nat.mod_eq_of_lt (by omega)
    have hb : mem o < 256 := by have := hm o; omega
    simp only [getIndirectYIndexed, and16, and8, hoo]
    rw [Nat.lor_comm, lor_byte_eq_add _ _ hb, Nat.add_comm (256 * mem ((o + 1) % 256))]

/-- Witness for the amended Claim C5 at a concrete input. -/
theorem resolver_returns_address_only_witness :
    getAbsoluteX 0x34 0x12 0x10 = (256 * 0x12 + 0x34 + 0x10) % 65536
    ∧ getAbsoluteY 0x34 0x12 0x20 = (256 * 0x12 + 0x34 + 0x20) % 65536
    ∧ getIndirectYIndexed 0x80 0x20 (fun _ => 7) = (7 + 256 * 7 + 0x20) % 65536 := by
  simpa using resolver_returns_address_only 0x34 0x12 0x10 0x20 0x80 (fun _ => 7)
    (by norm_num) (by norm_num) (fun a => by norm_num)

/-- Claim C7: the Indirect resolver reads the low byte of the pointer at
`(hi << 8) | lo` and the high byte at `(hi << 8) | ((lo + 1) & 0xFF)` — the
low byte of the pointer address wraps within the same page — and in
particular with operand bytes (0xFF, 0x02) the high byte comes from 0x0200,
not 0x0300. -/
theorem getIndirect_page_wrap (operand1 operand2 : Nat) (mem : Nat → Nat)
    (h1 : operand1 ≤ 0xFF) (h2 : operand2 ≤ 0xFF) (hm : ∀ a, mem a ≤ 0xFF) :
    getIndirect operand1 operand2 mem
        = 256 * mem (256 * operand2 + (operand1 + 1) % 256)
            + mem (256 * operand2 + operand1)
    ∧ getIndirect 0xFF 0x02 mem = 256 * mem 0x0200 + mem 0x02FF := by
  have key : ∀ o1 o2 : Nat, o1 ≤ 0xFF → o2 ≤ 0xFF →
      getIndirect o1 o2 mem
        = 256 * mem (256 * o2 + (o1 + 1) % 256) + mem (256 * o2 + o1) := by
    intro o1 o2 ho1 ho2
    have hL : (o2 <<< 8) ||| o1 = 256 * o2 + o1 := lor_byte_eq_add _ _ (by omega)
    have hH : (o2 <<< 8) ||| and8 (o1 + 1) = 256 * o2 + (o1 + 1) % 256 := by
      have hmod : (o1 + 1) % 256 < 256 := Nat.mod_lt _ (by norm_num)
      simpa [and8] using lor_byte_eq_add o2 ((o1 + 1) % 256) hmod
    have hmod : (o1 + 1) % 256 < 256 := Nat.mod_lt _ (by norm_num)
    have eL : (256 * o2 + o1) % 65536 = 256 * o2 + o1 := Nat.mod_eq_of_lt (by omega)
    have eH : (256 * o2 + (o1 + 1) % 256) % 65536 = 256 * o2 + (o1 + 1) % 256 :=
      Nat.mod_eq_of_lt (by omega)
    simp only [getIndirect, and16, hL, hH, eL, eH]
    have hbL : mem (256 * o2 + o1) < 256 := by have := hm (256 * o2 + o1); omega
    have hbH : mem (256 * o2 + (o1 + 1) % 256) ≤ 0xFF := hm _
    rw [lor_byte_eq_add _ _ hbL]
    exact Nat.mod_eq_of_lt (by omega)
  refine ⟨key operand1 operand2 h1 h2, ?_⟩
  have h255 := key 0xFF 0x02 (by norm_num) (by norm_num)
  norm_num at h255
  exact h255

/-- Witness for Claim C7 at a concrete memory. -/
theorem getIndirect_page_wrap_witness :
    getIndirect 0xFF 0x02 (fun a => a % 256)
        = 256 * (0x0200 % 256) + 0x02FF % 256 := by
  have h := getIndirect_page_wrap 0xFF 0x02 (fun a => a % 256) (by norm_num) (by norm_num)
    (fun a => by show a % 256 ≤ 0xFF; omega)
  simpa using h.2

/-! ### Claim C10: PHP -/

/-- Wrapping decrement `(n - 1) & 0xFF` as plain modular arithmetic. -/
theorem and8i_sub_one (n : Nat) : and8i ((n : Int) - 1) = (n + 255) % 256 := by
  unfold and8i
  omega

/-- A CPU state for exercising PHP. -/
def corePhp : Core := ⟨0x11, 0x22, 0x33, 0x8000, 0xFD, 0x83, fun _ => 0⟩

/-- Claim C10, counterexample: PHP does not leave every register other than
the status byte unchanged — it decrements the stack pointer (from 0xFD to
0xFC here). -/
theorem PHP_decrements_sp :
    corePhp.sp = 0xFD ∧ (PHP corePhp).sp = 0xFC ∧ (PHP corePhp).sp ≠ corePhp.sp := by
  refine ⟨by decide, by decide, by decide⟩

/-- Claim C10 (amended): PHP mutates the live status register itself — after
it completes, bits 4 and 5 of the in-register status byte are set and the
status equals the old status OR 0x30 — and the same value is written to
stack memory at 0x0100+SP; SP is decremented by one modulo 256, and all
other registers (A, X, Y, PC) and all other memory bytes are unchanged. -/
theorem PHP_spec (c : Core) (hst : c.status ≤ 0xFF) :
    (PHP c).status = c.status ||| 0x30
    ∧ (PHP c).status.testBit 4 = true
    ∧ (PHP c).status.testBit 5 = true
    ∧ (PHP c).mainMemory (0x0100 + c.sp) = c.status ||| 0x30
    ∧ (∀ addr, addr ≠ 0x0100 + c.sp → (PHP c).mainMemory addr = c.mainMemory addr)
    ∧ (PHP c).sp = (c.sp + 255) % 256
    ∧ (PHP c).a = c.a ∧ (PHP c).x = c.x ∧ (PHP c).y = c.y ∧ (PHP c).pc = c.pc := by
  have hlt : c.status ||| 0x30 < 256 := by
    have h1 : c.status < 2 ^ 8 := by omega
    have h2 : (0x30 : Nat) < 2 ^ 8 := by norm_num
    have := Nat.or_lt_two_pow h1 h2
    omega
  refine ⟨rfl, ?_, ?_, ?_, ?_, ?_, rfl, rfl, rfl, rfl⟩
  · show (c.status ||| 0x30).testBit 4 = true
    rw [Nat.testBit_or]
    simp [show Nat.testBit 0x30 4 = true from by decide]
  · show (c.status ||| 0x30).testBit 5 = true
    rw [Nat.testBit_or]
    simp [show Nat.testBit 0x30 5 = true from by decide]
  · show memWrite c.mainMemory (0x0100 + c.sp) (c.status ||| 0x30) (0x0100 + c.sp) = _
    simp [memWrite, Nat.mod_eq_of_lt hlt]
  · intro addr haddr
    show memWrite c.mainMemory (0x0100 + c.sp) (c.status ||| 0x30) addr = _
    simp [memWrite, haddr]
  · exact and8i_sub_one c.sp

/-- A concrete CPU state for the PHP witness. -/
def corePhpW : Core := ⟨1, 2, 3, 0x8000, 0x80, 0x83, fun _ => 9⟩

/-- Witness for the amended Claim C10 at a concrete state. -/
theorem PHP_spec_witness :
    corePhpW.status ≤ 0xFF
    ∧ (PHP corePhpW).status = corePhpW.status ||| 0x30
    ∧ (PHP corePhpW).sp = (corePhpW.sp + 255) % 256
    ∧ (PHP corePhpW).mainMemory (0x0100 + corePhpW.sp) = corePhpW.status ||| 0x30 := by
  have h := PHP_spec corePhpW (by decide)
  exact ⟨by decide, h.1, h.2.2.2.2.2.1, h.2.2.2.1⟩

/-! ### Machine lemmas: cycle countdown and dispatch -/

theorem cpuCycle_fst_of_ne (m : Machine) (h : m.currentInstructionCycles ≠ 0) :
    (cpuCycle m).1 = { m with currentInstructionCycles := m.currentInstructionCycles - 1,
                              totalCycles := m.totalCycles + 1 } := by
  unfold cpuCycle
  simp [h]

theorem dispFlag_of_ne (m : Machine) (h : m.currentInstructionCycles ≠ 0) :
    dispFlag m = false := by
  unfold dispFlag cpuCycle
  simp [h]

theorem decodeInstruction_found (m : Machine) (e : OpCode)
    (he : opcode_matrix (m.core.mainMemory m.core.pc) = some e) :
    (decodeInstruction m).1.currentInstructionCycles = (e.cycles : Int)
    ∧ (decodeInstruction m).2 = none := by
  simp only [decodeInstruction, he]
  split_ifs <;> exact ⟨rfl, rfl⟩

theorem cpuCycle_dispatch (m : Machine) (e : OpCode)
    (h0 : m.currentInstructionCycles = 0)
    (he : opcode_matrix (m.core.mainMemory m.core.pc) = some e) :
    (cpuCycle m).1.currentInstructionCycles = (e.cycles : Int) - 1
    ∧ (cpuCycle m).2.dispatched = true := by
  have hd := decodeInstruction_found m e he
  unfold cpuCycle
  simp [h0, hd.1, hd.2]

theorem cpuCycle_decode_error (m : Machine)
    (h0 : m.currentInstructionCycles = 0)
    (hn : opcode_matrix (m.core.mainMemory m.core.pc) = none) :
    (cpuCycle m).1.core = m.core
    ∧ (cpuCycle m).1.currentInstructionCycles = -1
    ∧ (cpuCycle m).2.dispatched = false
    ∧ (cpuCycle m).2.decodeError = some (m.core.mainMemory m.core.pc) := by
  unfold cpuCycle decodeInstruction
  simp [h0, hn]

theorem runTicks_countdown : ∀ (k : Nat) (m : Machine),
    (k : Int) ≤ m.currentInstructionCycles →
    (runTicks k m).currentInstructionCycles = m.currentInstructionCycles - k
  | 0, m, _ => by simp [runTicks]
  | k + 1, m, h => by
    have hk1 : ((k : Int) + 1) ≤ m.currentInstructionCycles := by push_cast at h; omega
    have hne : m.currentInstructionCycles ≠ 0 := by omega
    have hstep := cpuCycle_fst_of_ne m hne
    have h2 : (k : Int) ≤ (cpuCycle m).1.currentInstructionCycles := by
      rw [hstep]
      show (k : Int) ≤ m.currentInstructionCycles - 1
      omega
    have ih := runTicks_countdown k (cpuCycle m).1 h2
    show (runTicks k (cpuCycle m).1).currentInstructionCycles = _
    rw [ih, hstep]
    show m.currentInstructionCycles - 1 - (k : Int) = _
    push_cast
    omega

theorem neverDispatch_of_neg : ∀ (n : Nat) (m : Machine),
    m.currentInstructionCycles < 0 →
    dispFlag (runTicks n m) = false ∧ (runTicks n m).currentInstructionCycles < 0
  | 0, m, h => ⟨dispFlag_of_ne m (by omega), h⟩
  | n + 1, m, h => by
    have hne : m.currentInstructionCycles ≠ 0 := by omega
    have hstep := cpuCycle_fst_of_ne m hne
    have h2 : (cpuCycle m).1.currentInstructionCycles < 0 := by
      rw [hstep]
      show m.currentInstructionCycles - 1 < 0
      omega
    have ih := neverDispatch_of_neg n (cpuCycle m).1 h2
    exact ih

/-! ### Claim C8: unknown opcode -/

/-- Claim C8: if the opcode byte at PC has no entry in the opcode table, the
dispatching step executes no instruction handler and leaves the whole core
(PC, A, X, Y, SP, status and all of memory) unchanged, reports the offending
byte, and no later step ever dispatches an instruction (the cycle counter
goes negative and is never zero again). -/
theorem decode_error_halts (m : Machine)
    (h0 : m.currentInstructionCycles = 0)
    (hn : opcode_matrix (m.core.mainMemory m.core.pc) = none) :
    (cpuCycle m).1.core = m.core
    ∧ (cpuCycle m).2.dispatched = false
    ∧ (cpuCycle m).2.decodeError = some (m.core.mainMemory m.core.pc)
    ∧ ∀ n, dispFlag (runTicks n (cpuCycle m).1) = false := by
  have h := cpuCycle_decode_error m h0 hn
  refine ⟨h.1, h.2.2.1, h.2.2.2, fun n => ?_⟩
  exact (neverDispatch_of_neg n (cpuCycle m).1 (by rw [h.2.1]; omega)).1

/-- A machine whose PC points at the unassigned opcode byte 0x02. -/
def machErr : Machine :=
  ⟨⟨0, 0, 0, 0xC000, 0xFD, 0, fun a => if a = 0xC000 then 0x02 else 0⟩, 0, 0⟩

/-- Witness for Claim C8 at a concrete machine. -/
theorem decode_error_halts_witness :
    machErr.currentInstructionCycles = 0
    ∧ (cpuCycle machErr).1.core = machErr.core
    ∧ (cpuCycle machErr).2.decodeError = some 0x02
    ∧ dispFlag (runTicks 5 (cpuCycle machErr).1) = false := by
  have h := decode_error_halts machErr rfl (by rfl)
  exact ⟨rfl, h.1, h.2.2.1, h.2.2.2 5⟩

/-! ### Claim C9: PC overflow at the top of memory -/

/-- A machine about to dispatch the 3-byte instruction LDA abs at 0xFFFE. -/
def machPc : Machine :=
  ⟨⟨0, 0, 0, 0xFFFE, 0xFD, 0, fun a => if a = 0xFFFE then 0xAD else 0⟩, 0, 0⟩

/-- Claim C9, evidence of the code bug: dispatching the 3-byte instruction
at PC = 0xFFFE leaves PC = 0x10001 = 65537 > 0xFFFF, because
`decodeInstruction` advances PC with `pc += instruction.size` and no modulo
65536 reduction. -/
theorem pc_increment_not_masked :
    machPc.core.pc = 0xFFFE
    ∧ (cpuCycle machPc).2.dispatched = true
    ∧ (cpuCycle machPc).1.core.pc = 0x10001
    ∧ 0xFFFF < (cpuCycle machPc).1.core.pc := by
  refine ⟨rfl, by decide, by decide, by decide⟩

/-! ### Claim C6: branch cycle cost -/

/-- A machine about to dispatch `BNE -16` (opcode 0xD0, displacement byte
0xF0) at 0xC003 with the zero flag clear, so the branch is taken and the new
PC 0xBFF5 lies in a different page than 0xC005. -/
def machBne : Machine :=
  ⟨⟨0, 0, 0, 0xC003, 0xFD, 0,
    fun a => if a = 0xC003 then 0xD0 else if a = 0xC004 then 0xF0 else 0⟩, 0, 0⟩

/-- Claim C6, counterexample: this taken, page-crossing BNE (base cycle
count 2 in the opcode table) consumes exactly 2 ticks — the remaining-cycle
counter is back at zero after 2 ticks and the next instruction dispatches on
tick 3 — while the claim requires it to consume 2 + 2 = 4 ticks.  No handler
ever touches the cycle counters, so no taken-branch or page-crossing penalty
exists. -/
theorem BNE_taken_page_cross_no_penalty :
    dispFlag machBne = true
    ∧ (cpuCycle machBne).1.core.pc = 0xBFF5
    ∧ (0xC005 : Nat) >>> 8 ≠ (0xBFF5 : Nat) >>> 8
    ∧ (runTicks 2 machBne).currentInstructionCycles = 0
    ∧ dispFlag (runTicks 1 machBne) = false
    ∧ dispFlag (runTicks 2 machBne) = true := by
  refine ⟨by decide, by decide, by decide, by decide, by decide, by decide⟩

/-- Claim C6 (amended): whenever the remaining-cycle counter is zero and the
opcode at PC has a table entry with base cycle count b at least 1, the
dispatched instruction — branches included, taken or not, page-crossing or
not — consumes exactly b ticks: tick 1 dispatches it, ticks 2..b only count
down, and after b ticks the counter is back at zero; no taken-branch or
page-crossing penalty cycle is ever added. -/
theorem instruction_consumes_base_cycles (m : Machine) (e : OpCode)
    (h0 : m.currentInstructionCycles = 0)
    (he : opcode_matrix (m.core.mainMemory m.core.pc) = some e)
    (hb : 1 ≤ e.cycles) :
    dispFlag m = true
    ∧ (∀ j, 1 ≤ j → j < e.cycles → dispFlag (runTicks j m) = false)
    ∧ (runTicks e.cycles m).currentInstructionCycles = 0 := by
  have hd := cpuCycle_dispatch m e h0 he
  refine ⟨hd.2, ?_, ?_⟩
  · intro j hj1 hjb
    obtain ⟨k, rfl⟩ : ∃ k, j = k + 1 := ⟨j - 1, by omega⟩
    show dispFlag (runTicks k (cpuCycle m).1) = false
    have hle : ((k : Nat) : Int) ≤ (cpuCycle m).1.currentInstructionCycles := by
      rw [hd.1]
      omega
    have hc := runTicks_countdown k _ hle
    apply dispFlag_of_ne
    rw [hc, hd.1]
    omega
  · obtain ⟨k, hk⟩ : ∃ k, e.cycles = k + 1 := ⟨e.cycles - 1, by omega⟩
    rw [hk]
    show (runTicks k (cpuCycle m).1).currentInstructionCycles = 0
    have hle : ((k : Nat) : Int) ≤ (cpuCycle m).1.currentInstructionCycles := by
      rw [hd.1, hk]
      push_cast
      omega
    rw [runTicks_countdown k _ hle, hd.1, hk]
    push_cast
    omega

/-- Witness for the amended Claim C6 at the concrete BNE machine. -/
theorem instruction_consumes_base_cycles_witness :
    dispFlag machBne = true ∧ (runTicks 2 machBne).currentInstructionCycles = 0 := by
  have h := instruction_consumes_base_cycles machBne ⟨"BNE", "rel", 2, 2⟩ rfl (by rfl)
    (by norm_num)
  exact ⟨h.1, h.2.2⟩
